import Mathlib

/-!
Verification of the manual TLS certificates operator charm (`src/charm.py`).

Python strings are modelled as `List Char`, Python `bytes` as `List Nat`
(byte values).  Fallible Python calls are modelled with `Except`/`Option`:
an `Except.error` that no enclosing handler catches models an uncaught
Python exception escaping the event handler.

The helper module `helpers.py` (`certificate_is_valid`,
`certificate_signing_request_is_valid`, `parse_ca_chain`) and the charm
library `TLSCertificatesProvidesV2` are part of the repository but are not
under `src/`; the structural validators are taken as parameters of the
charm model, and the relation-data ("Request Ledger") operations and
`parse_ca_chain` are modelled from the specification (see the doc comments
marked "Modelled from the spec").
-/

/-- A Python `str`, as a list of unicode characters. -/
abbrev PyStr := List Char

/-- A Python `bytes`, as a list of byte values. -/
abbrev Bytes := List Nat

instance {ε α : Type} [DecidableEq ε] [DecidableEq α] : DecidableEq (Except ε α) := fun x y =>
  match x, y with
  | .ok a, .ok b =>
    if h : a = b then .isTrue (h ▸ rfl) else .isFalse (fun hh => h (Except.ok.inj hh))
  | .error a, .error b =>
    if h : a = b then .isTrue (h ▸ rfl) else .isFalse (fun hh => h (Except.error.inj hh))
  | .ok _, .error _ => .isFalse (fun hh => Except.noConfusion hh)
  | .error _, .ok _ => .isFalse (fun hh => Except.noConfusion hh)

/-! ## base64 decoding (`base64.b64decode` on a `str` argument)

`base64.b64decode(s)` first encodes the string as ASCII — a non-ASCII
character raises a plain `ValueError` (not a `binascii.Error`) — and then
runs `binascii.a2b_base64` in non-strict mode: characters outside the
base64 alphabet are skipped, `'='` completes the current quadruple when at
least two data characters have been seen (the rest of the input is then
ignored), and a leftover partial quadruple at the end of input raises
`binascii.Error` ("invalid padding"). -/

inductive B64Err where
  | nonAscii
  | badPadding
deriving DecidableEq

/-- Value of a base64 alphabet character, `none` for anything else. -/
def b64CharVal (c : Char) : Option Nat :=
  if 'A' ≤ c ∧ c ≤ 'Z' then some (c.toNat - 65)
  else if 'a' ≤ c ∧ c ≤ 'z' then some (c.toNat - 97 + 26)
  else if '0' ≤ c ∧ c ≤ '9' then some (c.toNat - 48 + 52)
  else if c = '+' then some 62
  else if c = '/' then some 63
  else none

/-- The three bytes encoded by a full quadruple of sextets. -/
def b64EmitFull (a b c d : Nat) : List Nat :=
  [a * 4 + b / 16, (b % 16) * 16 + c / 4, (c % 4) * 64 + d]

/-- The bytes already determined by a partial quadruple when padding
completes it (two sextets give one byte, three give two). -/
def b64Flush (quad : List Nat) : List Nat :=
  match quad with
  | [a, b] => [a * 4 + b / 16]
  | [a, b, c] => [a * 4 + b / 16, (b % 16) * 16 + c / 4]
  | _ => []

/-- `binascii.a2b_base64` (non-strict mode), carrying the current partial
quadruple and the number of pad characters seen against it.  As in
CPython's `binascii.c`: a pad character counts only when at least two
sextets of the current quadruple have been seen, and completes the decode
when it fills the quadruple; consuming a data character resets the pad
count to zero (`pads = 0`); characters outside the alphabet are skipped
and leave the pad count alone. -/
def a2bBase64 : PyStr → List Nat → Nat → Except B64Err (List Nat)
  | [], quad, _ => if quad.isEmpty then .ok [] else .error .badPadding
  | c :: rest, quad, pads =>
    if c = '=' then
      if 2 ≤ quad.length then
        if 4 ≤ quad.length + pads + 1 then .ok (b64Flush quad)
        else a2bBase64 rest quad (pads + 1)
      else a2bBase64 rest quad pads
    else
      match b64CharVal c with
      | none => a2bBase64 rest quad pads
      | some v =>
        match quad ++ [v] with
        | [a, b, c2, d] => (a2bBase64 rest [] 0).map (fun tl => b64EmitFull a b c2 d ++ tl)
        | q => a2bBase64 rest q 0

/-- `base64.b64decode` on a `str`: ASCII check, then `a2b_base64`. -/
def b64decode (s : PyStr) : Except B64Err Bytes :=
  if s.any (fun c => 128 ≤ c.toNat) then .error .nonAscii
  else a2bBase64 s [] 0

/-! ## UTF-8 (`bytes.decode("utf-8")` / `str.encode()`) -/

/-- UTF-8 encoding of one character. -/
def utf8EncodeChar (c : Char) : List Nat :=
  let n := c.toNat
  if n < 128 then [n]
  else if n < 2048 then [192 + n / 64, 128 + n % 64]
  else if n < 65536 then [224 + n / 4096, 128 + n / 64 % 64, 128 + n % 64]
  else [240 + n / 262144, 128 + n / 4096 % 64, 128 + n / 64 % 64, 128 + n % 64]

/-- `str.encode()`: UTF-8 encoding of a string. -/
def utf8Encode (s : PyStr) : Bytes :=
  s.foldr (fun c acc => utf8EncodeChar c ++ acc) []

/-- Whether a byte is a UTF-8 continuation byte. -/
def contByte (b : Nat) : Bool := decide (128 ≤ b ∧ b < 192)

/-- `bytes.decode("utf-8")`: strict UTF-8 decoding; `none` models a raised
`UnicodeDecodeError` (overlong forms, surrogates, stray continuation or
out-of-range lead bytes are all rejected, as in CPython). -/
def utf8Decode : Bytes → Option PyStr
  | [] => some []
  | b :: rest =>
    if b < 128 then
      (utf8Decode rest).map (fun t => Char.ofNat b :: t)
    else if b < 194 then none
    else if b < 224 then
      match rest with
      | b2 :: r =>
        if contByte b2 then
          (utf8Decode r).map (fun t => Char.ofNat ((b - 192) * 64 + (b2 - 128)) :: t)
        else none
      | [] => none
    else if b < 240 then
      match rest with
      | b2 :: b3 :: r =>
        if contByte b2 ∧ contByte b3 ∧
            2048 ≤ (b - 224) * 4096 + (b2 - 128) * 64 + (b3 - 128) ∧
            ¬(55296 ≤ (b - 224) * 4096 + (b2 - 128) * 64 + (b3 - 128) ∧
              (b - 224) * 4096 + (b2 - 128) * 64 + (b3 - 128) < 57344) then
          (utf8Decode r).map
            (fun t => Char.ofNat ((b - 224) * 4096 + (b2 - 128) * 64 + (b3 - 128)) :: t)
        else none
      | _ => none
    else if b < 245 then
      match rest with
      | b2 :: b3 :: b4 :: r =>
        if contByte b2 ∧ contByte b3 ∧ contByte b4 ∧
            65536 ≤ (b - 240) * 262144 + (b2 - 128) * 4096 + (b3 - 128) * 64 + (b4 - 128) ∧
            (b - 240) * 262144 + (b2 - 128) * 4096 + (b3 - 128) * 64 + (b4 - 128) < 1114112 then
          (utf8Decode r).map
            (fun t =>
              Char.ofNat ((b - 240) * 262144 + (b2 - 128) * 4096 + (b3 - 128) * 64 + (b4 - 128)) :: t)
        else none
      | _ => none
    else none

/-! ## `str.strip()` -/

/-- Python's `str.isspace` character class (the whitespace characters
stripped by `str.strip()` with no argument). -/
def pyIsSpace (c : Char) : Bool :=
  let n := c.toNat
  decide ((9 ≤ n ∧ n ≤ 13) ∨ (28 ≤ n ∧ n ≤ 31) ∨ n = 32 ∨ n = 133 ∨ n = 160 ∨
    n = 5760 ∨ (8192 ≤ n ∧ n ≤ 8202) ∨ n = 8232 ∨ n = 8233 ∨ n = 8239 ∨
    n = 8287 ∨ n = 12288)

/-- `str.strip()`: remove leading and trailing whitespace. -/
def pyStrip (s : PyStr) : PyStr :=
  ((s.dropWhile pyIsSpace).reverse.dropWhile pyIsSpace).reverse

/-! ## `parse_ca_chain` (from `helpers.py`, not under `src/`) -/

/-- `leadsWith p s`: whether `p` is an initial segment of `s`. -/
def leadsWith : PyStr → PyStr → Bool
  | [], _ => true
  | _ :: _, [] => false
  | p :: ps, c :: cs => p == c && leadsWith ps cs

/-- Index of the first occurrence of `pat` in `s`, if any. -/
def findSub (pat : PyStr) (s : PyStr) : Option Nat :=
  if leadsWith pat s then some 0
  else
    match s with
    | [] => none
    | _ :: t => (findSub pat t).map (· + 1)

/-- The PEM certificate opening delimiter. -/
def beginMark : PyStr := ("-----BEGIN CERTIFICATE-----").toList

/-- The PEM certificate closing delimiter. -/
def endMark : PyStr := ("-----END CERTIFICATE-----").toList

/-- Modelled from the spec: `parseCaChain` from `helpers.py` (the module is
not under `src/`).  "Splits a text blob on PEM block boundaries
(`BEGIN CERTIFICATE` / `END CERTIFICATE` delimiters), returning each block
(delimiters included) as a separate string, in original order.  A blob with
no delimiters returns an empty sequence." -/
def parse_ca_chain (s : PyStr) : List PyStr :=
  match hb : findSub beginMark s with
  | none => []
  | some i =>
    match findSub endMark (List.drop (i + beginMark.length) s) with
    | none => []
    | some j =>
      List.take (beginMark.length + j + endMark.length) (List.drop i s) ::
        parse_ca_chain (List.drop (i + beginMark.length + j + endMark.length) s)
termination_by s.length
decreasing_by
  simp only [List.length_drop]
  have hs : s ≠ [] := by
    intro h
    rw [h] at hb
    have hnone : findSub beginMark [] = none := by decide
    rw [hnone] at hb
    exact Option.noConfusion hb
  have hpos : 0 < s.length := List.length_pos.mpr hs
  have hbm : beginMark.length = 27 := by decide
  omega

/-! ## The Request Ledger (relation data behind `TLSCertificatesProvidesV2`)

The charm library is part of the repository but not under `src/`; its
operations are modelled from the specification (§3, §4.2). -/

/-- A certificate attached to a CSR: leaf certificate, CA certificate and
the ordered CA chain. -/
structure CertData where
  certificate : PyStr
  ca : PyStr
  chain : List PyStr
deriving DecidableEq

/-- One CSR of a requester unit, with its certificate when fulfilled
(`none` = outstanding). -/
structure CsrEntry where
  csr : PyStr
  certificate : Option CertData
deriving DecidableEq

/-- Per-requester-unit record: the unit and its submitted CSRs. -/
structure UnitRecord where
  unitName : PyStr
  entries : List CsrEntry
deriving DecidableEq

/-- One relation/session: its id and its requester units. -/
structure Relation where
  relId : Nat
  units : List UnitRecord
deriving DecidableEq

/-- The Request Ledger: all certificates relations. -/
abbrev Ledger := List Relation

/-- Python exceptions that the charm code can raise or catch. -/
inductive PyExn where
  | valueError
  | binasciiError
  | unicodeDecodeError
  | notFoundError
  | runtimeError
  | notImplementedError
deriving DecidableEq

/-- The exception raised by an uncaught `b64decode` failure: non-ASCII
input raises a plain `ValueError`, bad padding a `binascii.Error`. -/
def exnOfB64 : B64Err → PyExn
  | .nonAscii => .valueError
  | .badPadding => .binasciiError

/-- Fulfil the first outstanding entry whose CSR text matches, if any. -/
def attachFirst (csr : PyStr) (cd : CertData) : List CsrEntry → Option (List CsrEntry)
  | [] => none
  | e :: es =>
    if e.csr = csr ∧ e.certificate = none then some ({ e with certificate := some cd } :: es)
    else (attachFirst csr cd es).map (e :: ·)

/-- Fulfil the first outstanding matching entry across a relation's units. -/
def attachInUnits (csr : PyStr) (cd : CertData) : List UnitRecord → Option (List UnitRecord)
  | [] => none
  | u :: us =>
    match attachFirst csr cd u.entries with
    | some es => some ({ u with entries := es } :: us)
    | none => (attachInUnits csr cd us).map (u :: ·)

/-- Modelled from the spec: `attachCertificate` of the Request Ledger
(`TLSCertificatesProvidesV2.set_relation_certificate`, not under `src/`).
"Locates the matching OUTSTANDING entry for `csr` within `relationId` and
transitions it to FULFILLED, storing certificate/CA/chain.  Fails with
`NotFoundError` when no session exists for `relationId` (regardless of
whether the CSR text matches anything)."  The failure is a Python
`RuntimeError`, which is what the charm catches. -/
def set_relation_certificate (rid : Nat) (csr certificate ca : PyStr) (chain : List PyStr)
    (ledger : Ledger) : Except PyExn Ledger :=
  match ledger.find? (fun r => r.relId == rid) with
  | none => .error .runtimeError
  | some _ =>
    .ok (ledger.map (fun r =>
      if r.relId == rid then
        { r with units := (attachInUnits csr ⟨certificate, ca, chain⟩ r.units).getD r.units }
      else r))

/-- Modelled from the spec: `listByRequester`
(`TLSCertificatesProvidesV2.get_requirer_csrs`, not under `src/`).
"Returns every CSR (both states) for a given relation/session, paired with
its certificate if fulfilled.  Fails with `NotFoundError` when `relationId`
does not correspond to an existing session." -/
def get_requirer_csrs (rid : Nat) (ledger : Ledger) : Except PyExn (List UnitRecord) :=
  match ledger.find? (fun r => r.relId == rid) with
  | none => .error .notFoundError
  | some r => .ok r.units

/-- The outstanding CSR texts of one unit record. -/
def outstandingOf (u : UnitRecord) : List PyStr :=
  (u.entries.filter (fun e => e.certificate.isNone)).map (fun e => e.csr)

/-- One element of the `listOutstanding` result: a unit and its
outstanding CSRs. -/
structure UnitCsrs where
  unit : PyStr
  unit_csrs : List PyStr
deriving DecidableEq

/-- Modelled from the spec: `listOutstanding`
(`TLSCertificatesProvidesV2.get_requirer_csrs_with_no_certs`, not under
`src/`).  "Returns, grouped by requester unit, every CSR currently in state
OUTSTANDING", units in relation-join order, CSRs in submission order; a
unit with nothing outstanding does not appear (§8: after the only CSR is
fulfilled the result is the empty sequence). -/
def get_requirer_csrs_with_no_certs (ledger : Ledger) : List UnitCsrs :=
  ledger.foldr
    (fun r acc =>
      ((r.units.map (fun u => UnitCsrs.mk u.unitName (outstandingOf u))).filter
        (fun e => !e.unit_csrs.isEmpty)) ++ acc)
    []

/-! ## The charm (`src/charm.py`) -/

/-- The result of one Juju action event: `event.fail(message)`,
`event.set_results(value)`, or an exception escaping the handler. -/
inductive ActionOutcome (α : Type) where
  | failed (msg : PyStr)
  | results (value : α)
  | raised (e : PyExn)
deriving DecidableEq

/-- Message of `charm.py` line 99/114/135. -/
def noRelationMsg : PyStr := ("No certificates relation has been created yet.").toList

/-- Message of `charm.py` line 144. -/
def invalidInputMsg : PyStr := ("Action input is not valid.").toList

/-- Message of `charm.py` line 161. -/
def relationNotFoundMsg : PyStr := ("Relation does not exist with the provided id.").toList

/-- Result value of `charm.py` line 163. -/
def providedMsg : PyStr := ("Certificates successfully provided.").toList

/-- The relation name `"certificates"`. -/
def certificatesRelation : PyStr := ("certificates").toList

/-- The charm's visible state: the `model.relations` mapping (`.error` = a
lookup that raises `KeyError`; the value is the list of relations of that
name) and the Request Ledger held in relation data. -/
structure CharmState where
  relationsGet : PyStr → Except Unit (List Nat)
  ledger : Ledger

/-- The parameters of the `provide-certificate` action. -/
structure ProvideParams where
  certificate : PyStr
  ca_certificate : PyStr
  certificate_signing_request : PyStr
  ca_chain : PyStr
  relation_id : Nat
deriving DecidableEq

/-- `_relation_created` (`charm.py` lines 218-229): truthiness of
`self.model.relations.get(relation_name, [])`, with `KeyError` caught and
mapped to `False`. -/
def relation_created (relationsGet : PyStr → Except Unit (List Nat))
    (relation_name : PyStr) : Bool :=
  match relationsGet relation_name with
  | .ok l => !l.isEmpty
  | .error _ => false

/-- `_action_certificates_are_valid` (`charm.py` lines 165-205),
parametrised by the structural validators from `helpers.py` (not under
`src/`).  The `try` block covers exactly the four `b64decode` calls and
catches `binascii.Error` and `TypeError`; a non-ASCII argument raises a
plain `ValueError` which is not caught, and an undecodable chain at line
200 raises an uncaught `UnicodeDecodeError`. -/
def action_certificates_are_valid (validC validCsr : Bytes → Bool)
    (certificate ca_certificate certificate_signing_request ca_chain : PyStr) :
    Except PyExn Bool :=
  match b64decode certificate with
  | .error .nonAscii => .error .valueError
  | .error .badPadding => .ok false
  | .ok certificate_bytes =>
    match b64decode ca_certificate with
    | .error .nonAscii => .error .valueError
    | .error .badPadding => .ok false
    | .ok ca_certificate_bytes =>
      match b64decode certificate_signing_request with
      | .error .nonAscii => .error .valueError
      | .error .badPadding => .ok false
      | .ok csr_bytes =>
        match b64decode ca_chain with
        | .error .nonAscii => .error .valueError
        | .error .badPadding => .ok false
        | .ok ca_chain_bytes =>
          if !validC certificate_bytes then .ok false
          else if !validC ca_certificate_bytes then .ok false
          else if !validCsr csr_bytes then .ok false
          else
            match utf8Decode ca_chain_bytes with
            | none => .error .unicodeDecodeError
            | some chain_text =>
              .ok ((parse_ca_chain chain_text).all (fun ca => validC (utf8Encode ca)))

/-- The type of the attach step used by the provide-certificate handler
(`set_relation_certificate`). -/
abbrev AttachFn := Nat → PyStr → PyStr → PyStr → List PyStr → Ledger → Except PyExn Ledger

/-- `_on_provide_certificate_action` (`charm.py` lines 125-163): relation
check, validation, decode-and-strip of the payloads (lines 147-150, whose
`.decode(...)` calls are outside any `try`), then the attach step with
only `RuntimeError` caught.  Returns the action outcome and the ledger
afterwards. -/
def on_provide_certificate_action (validC validCsr : Bytes → Bool) (attach : AttachFn)
    (st : CharmState) (p : ProvideParams) : ActionOutcome PyStr × Ledger :=
  if !relation_created st.relationsGet certificatesRelation then
    (.failed noRelationMsg, st.ledger)
  else
    match action_certificates_are_valid validC validCsr p.certificate p.ca_certificate
        p.certificate_signing_request p.ca_chain with
    | .error e => (.raised e, st.ledger)
    | .ok false => (.failed invalidInputMsg, st.ledger)
    | .ok true =>
      match b64decode p.ca_chain with
      | .error e => (.raised (exnOfB64 e), st.ledger)
      | .ok chain_bytes =>
        match utf8Decode chain_bytes with
        | none => (.raised .unicodeDecodeError, st.ledger)
        | some chain_text =>
          match b64decode p.certificate_signing_request with
          | .error e => (.raised (exnOfB64 e), st.ledger)
          | .ok csr_bytes =>
            match utf8Decode csr_bytes with
            | none => (.raised .unicodeDecodeError, st.ledger)
            | some csr_text =>
              match b64decode p.certificate with
              | .error e => (.raised (exnOfB64 e), st.ledger)
              | .ok certificate_bytes =>
                match utf8Decode certificate_bytes with
                | none => (.raised .unicodeDecodeError, st.ledger)
                | some certificate_text =>
                  match b64decode p.ca_certificate with
                  | .error e => (.raised (exnOfB64 e), st.ledger)
                  | .ok ca_bytes =>
                    match utf8Decode ca_bytes with
                    | none => (.raised .unicodeDecodeError, st.ledger)
                    | some ca_text =>
                      match attach p.relation_id (pyStrip csr_text)
                          (pyStrip certificate_text) (pyStrip ca_text)
                          (parse_ca_chain chain_text) st.ledger with
                      | .error .runtimeError => (.failed relationNotFoundMsg, st.ledger)
                      | .error e => (.raised e, st.ledger)
                      | .ok newLedger => (.results providedMsg, newLedger)

/-- `_on_get_outstanding_certificate_requests_action` (`charm.py` lines
89-102). -/
def on_get_outstanding_certificate_requests_action (st : CharmState) :
    ActionOutcome (List UnitCsrs) :=
  if !relation_created st.relationsGet certificatesRelation then .failed noRelationMsg
  else .results (get_requirer_csrs_with_no_certs st.ledger)

/-- `_on_get_certificate_request_action` (`charm.py` lines 104-123): the
`get_requirer_csrs` call is not wrapped in any `try`, so its
`NotFoundError` escapes the handler. -/
def on_get_certificate_request_action (st : CharmState) (relation_id : Nat) :
    ActionOutcome (List UnitRecord) :=
  if !relation_created st.relationsGet certificatesRelation then .failed noRelationMsg
  else
    match get_requirer_csrs relation_id st.ledger with
    | .error e => .raised e
    | .ok units => .results units

/-- `_get_outstanding_requests` (`charm.py` lines 207-216): concatenate the
`unit_csrs` lists of all elements returned by
`get_requirer_csrs_with_no_certs`. -/
def get_outstanding_requests (ledger : Ledger) : List PyStr :=
  (get_requirer_csrs_with_no_certs ledger).foldl (fun acc e => acc ++ e.unit_csrs) []

/-- `_on_certificate_creation_request` (`charm.py` lines 74-87): the unit
status message it sets. -/
def on_certificate_creation_request (ledger : Ledger) : PyStr :=
  (toString (get_outstanding_requests ledger).length).toList ++
    (" outstanding requests, use juju actions to provide certificates").toList

/-- The event observers registered by `__init__`. -/
inductive Observer where
  | install
  | certificateCreationRequest
  | getOutstandingCertificateRequestsAction
  | getCertificateRequestAction
  | provideCertificateAction
deriving DecidableEq

/-- `TLSCertificatesOperatorCharm.__init__` (`charm.py` lines 37-59): a
non-leader unit raises `NotImplementedError` before any observer is
registered; a leader registers the five observers. -/
def charm_init (is_leader : Bool) : Except PyExn (List Observer) :=
  if !is_leader then .error .notImplementedError
  else
    .ok [.install, .certificateCreationRequest, .getOutstandingCertificateRequestsAction,
      .getCertificateRequestAction, .provideCertificateAction]

/-! ## Concrete sample values used by witnesses -/

/-- A structural validator accepting everything (sample instance). -/
def alwaysTrue : Bytes → Bool := fun _ => true

/-- A structural validator rejecting everything (sample instance). -/
def alwaysFalse : Bytes → Bool := fun _ => false

/-- An attach step that changes nothing (sample instance). -/
def attachNoop : AttachFn := fun _ _ _ _ _ l => .ok l

/-- A requester unit with two outstanding CSRs. -/
def sampleUnit : UnitRecord :=
  ⟨("unit/0").toList, [⟨("csr1").toList, none⟩, ⟨("csr2").toList, none⟩]⟩

/-- A ledger with one relation (id 1) holding `sampleUnit`. -/
def sampleLedger : Ledger := [⟨1, [sampleUnit]⟩]

/-- A charm state whose certificates relation exists. -/
def sampleState : CharmState := ⟨fun _ => .ok [1], sampleLedger⟩

/-- A charm state whose relation lookup raises `KeyError`. -/
def noRelState : CharmState := ⟨fun _ => .error (), sampleLedger⟩

/-- Action parameters that are all empty strings (valid base64 of `b""`),
naming relation id 7. -/
def emptyParams : ProvideParams := ⟨[], [], [], [], 7⟩

/-- Action parameters whose certificate contains a non-ASCII character. -/
def nonAsciiParams : ProvideParams := ⟨("é").toList, [], [], [], 1⟩

/-- No character of the string is a dash (true of PEM block bodies, which
are base64 text and newlines, and of whitespace separators). -/
abbrev NoDash (u : PyStr) : Prop := ∀ c ∈ u, c ≠ '-'

/-- Interleave separators and blocks: `glue [(s0, b0), (s1, b1)] t =
s0 ++ b0 ++ s1 ++ b1 ++ t`. -/
def glue : List (PyStr × PyStr) → PyStr → PyStr
  | [], t => t
  | pr :: rest, t => pr.1 ++ (pr.2 ++ glue rest t)

/-- A sample PEM body. -/
def sampleBody0 : PyStr := ("\nMIIB\n").toList

/-- Another sample PEM body. -/
def sampleBody1 : PyStr := ("\nQUJD\n").toList

/-- A sample PEM block. -/
def sampleBlock0 : PyStr := beginMark ++ sampleBody0 ++ endMark

/-- Another sample PEM block. -/
def sampleBlock1 : PyStr := beginMark ++ sampleBody1 ++ endMark

/-! ## Theorems -/

/-- Claim C9: `_relation_created` is total — it returns a boolean for every
relation name, never propagating an exception; it returns `true` exactly
when the lookup succeeds with a nonempty relation list, and `false` both
when the name is unknown (`KeyError` caught) and when the name maps to an
empty list. -/
theorem relation_created_spec (relationsGet : PyStr → Except Unit (List Nat)) (name : PyStr) :
    (relation_created relationsGet name = true ↔
      ∃ l, relationsGet name = .ok l ∧ l ≠ []) ∧
    (relationsGet name = .error () → relation_created relationsGet name = false) ∧
    (relationsGet name = .ok [] → relation_created relationsGet name = false) := by
  refine ⟨?_, ?_, ?_⟩
  · cases h : relationsGet name with
    | error e => simp [relation_created, h]
    | ok l => simp [relation_created, h, List.isEmpty_iff]
  · intro h; simp [relation_created, h]
  · intro h; simp [relation_created, h]

/-- Witness for C9 at a concrete lookup that raises `KeyError`. -/
theorem relation_created_spec_witness :
    relation_created (fun _ => .error ()) certificatesRelation = false :=
  (relation_created_spec (fun _ => .error ()) certificatesRelation).2.1 rfl

/-- Claim C7: on a non-leader unit, `__init__` fails fast with
`NotImplementedError` and registers no event observers. -/
theorem charm_init_non_leader :
    charm_init false = .error .notImplementedError ∧
    (charm_init false).isOk = false := by
  exact ⟨rfl, rfl⟩

/-- Claim C6: with no certificates relation created, each of the three
actions fails with the "no relation exists yet" message; the provide action
leaves the ledger unchanged, and no result depends on the ledger contents
or on the attach step. -/
theorem actions_fail_without_relation (st : CharmState)
    (validC validCsr : Bytes → Bool) (attach : AttachFn) (p : ProvideParams) (rid : Nat)
    (h : relation_created st.relationsGet certificatesRelation = false) :
    on_get_outstanding_certificate_requests_action st = .failed noRelationMsg ∧
    on_get_certificate_request_action st rid = .failed noRelationMsg ∧
    on_provide_certificate_action validC validCsr attach st p =
      (.failed noRelationMsg, st.ledger) := by
  refine ⟨?_, ?_, ?_⟩
  · simp [on_get_outstanding_certificate_requests_action, h]
  · simp [on_get_certificate_request_action, h]
  · simp [on_provide_certificate_action, h]

/-- Witness for C6 at a concrete state whose lookup raises `KeyError`. -/
theorem actions_fail_without_relation_witness :
    on_get_outstanding_certificate_requests_action noRelState = .failed noRelationMsg ∧
    on_get_certificate_request_action noRelState 1 = .failed noRelationMsg ∧
    on_provide_certificate_action alwaysTrue alwaysTrue set_relation_certificate
        noRelState emptyParams = (.failed noRelationMsg, noRelState.ledger) :=
  actions_fail_without_relation noRelState alwaysTrue alwaysTrue set_relation_certificate
    emptyParams 1 (by decide)

/-- Length of the `_get_outstanding_requests` concatenation. -/
theorem length_foldl_append (l : List UnitCsrs) (acc : List PyStr) :
    (l.foldl (fun a e => a ++ e.unit_csrs) acc).length =
      acc.length + (l.map (fun e => e.unit_csrs.length)).sum := by
  induction l generalizing acc with
  | nil => simp
  | cons e t ih => simp [ih, List.length_append]; omega

/-- Claim C10: the status message set on a certificate creation request
reports the total number of outstanding CSRs summed across all requester
units (the concatenation of the `unit_csrs` lists), which in general
differs from the number of requester units. -/
theorem creation_request_counts_all_csrs :
    (∀ ledger : Ledger, on_certificate_creation_request ledger =
      (toString (((get_requirer_csrs_with_no_certs ledger).map
          (fun e => e.unit_csrs.length)).sum)).toList ++
        (" outstanding requests, use juju actions to provide certificates").toList) ∧
    (∃ ledger : Ledger,
      ((get_requirer_csrs_with_no_certs ledger).map (fun e => e.unit_csrs.length)).sum ≠
        (get_requirer_csrs_with_no_certs ledger).length) := by
  constructor
  · intro ledger
    unfold on_certificate_creation_request get_outstanding_requests
    rw [length_foldl_append]
    simp
  · exact ⟨sampleLedger, by decide⟩

/-- Claim C1 (counterexample): an action input whose certificate parameter
contains a non-ASCII character makes `base64.b64decode` raise a plain
`ValueError`, which the `except (binascii.Error, TypeError)` clause does
not catch — the action does not fail with the invalid-input outcome but
with an uncaught exception (the ledger is still unchanged). -/
theorem provide_nonascii_cex :
    b64decode nonAsciiParams.certificate = .error .nonAscii ∧
    relation_created sampleState.relationsGet certificatesRelation = true ∧
    on_provide_certificate_action alwaysTrue alwaysTrue set_relation_certificate
        sampleState nonAsciiParams ≠ (.failed invalidInputMsg, sampleState.ledger) ∧
    on_provide_certificate_action alwaysTrue alwaysTrue set_relation_certificate
        sampleState nonAsciiParams = (.raised .valueError, sampleState.ledger) := by
  decide

/-- Claim C1 (amended): whenever validation does not succeed — any caught
base64 failure or structural validation failure, and also the uncaught
error cases — the relation data is unchanged and the attach step is never
invoked (the outcome is independent of it); every failure the handler
catches (validator returns `False`) yields exactly the invalid-input
outcome. -/
theorem provide_all_or_nothing (validC validCsr : Bytes → Bool) (attach attach2 : AttachFn)
    (st : CharmState) (p : ProvideParams)
    (hrel : relation_created st.relationsGet certificatesRelation = true)
    (hval : action_certificates_are_valid validC validCsr p.certificate p.ca_certificate
      p.certificate_signing_request p.ca_chain ≠ .ok true) :
    (on_provide_certificate_action validC validCsr attach st p).2 = st.ledger ∧
    on_provide_certificate_action validC validCsr attach st p =
      on_provide_certificate_action validC validCsr attach2 st p ∧
    (action_certificates_are_valid validC validCsr p.certificate p.ca_certificate
        p.certificate_signing_request p.ca_chain = .ok false →
      on_provide_certificate_action validC validCsr attach st p =
        (.failed invalidInputMsg, st.ledger)) := by
  unfold on_provide_certificate_action
  rw [hrel]
  cases h : action_certificates_are_valid validC validCsr p.certificate p.ca_certificate
      p.certificate_signing_request p.ca_chain with
  | error e => simp [h]
  | ok b =>
    cases b with
    | false => simp [h]
    | true => exact absurd h hval

/-- Witness for the amended C1 at a concrete rejecting validator. -/
theorem provide_all_or_nothing_witness :
    (on_provide_certificate_action alwaysFalse alwaysFalse set_relation_certificate
        sampleState emptyParams).2 = sampleState.ledger ∧
    on_provide_certificate_action alwaysFalse alwaysFalse set_relation_certificate
        sampleState emptyParams =
      on_provide_certificate_action alwaysFalse alwaysFalse attachNoop
        sampleState emptyParams ∧
    (action_certificates_are_valid alwaysFalse alwaysFalse emptyParams.certificate
        emptyParams.ca_certificate emptyParams.certificate_signing_request
        emptyParams.ca_chain = .ok false →
      on_provide_certificate_action alwaysFalse alwaysFalse set_relation_certificate
        sampleState emptyParams = (.failed invalidInputMsg, sampleState.ledger)) :=
  provide_all_or_nothing alwaysFalse alwaysFalse set_relation_certificate attachNoop
    sampleState emptyParams (by decide) (by decide)

/-- Claim C4: the `get-certificate-request` action fails with the ledger's
`NotFoundError` when the relation id names no existing session, and for an
existing session returns every CSR of that relation paired with its
certificate when fulfilled. -/
theorem get_certificate_request_spec (st : CharmState) (rid : Nat)
    (hrel : relation_created st.relationsGet certificatesRelation = true) :
    (st.ledger.find? (fun r => r.relId == rid) = none →
      on_get_certificate_request_action st rid = .raised .notFoundError) ∧
    (∀ r, st.ledger.find? (fun r2 => r2.relId == rid) = some r →
      on_get_certificate_request_action st rid = .results r.units) := by
  constructor
  · intro h
    unfold on_get_certificate_request_action get_requirer_csrs
    rw [hrel, h]
    rfl
  · intro r h
    unfold on_get_certificate_request_action get_requirer_csrs
    rw [hrel, h]
    rfl


/-- `parse_ca_chain` of a blob with no `BEGIN CERTIFICATE` delimiter is
empty. -/
theorem parse_chain_of_no_begin (s : PyStr) (h : findSub beginMark s = none) :
    parse_ca_chain s = [] := by
  rw [parse_ca_chain.eq_def]
  split
  · rfl
  · next i hb => rw [h] at hb; exact Option.noConfusion hb

/-- `parse_ca_chain` of the empty string. -/
theorem parse_chain_nil : parse_ca_chain [] = [] :=
  parse_chain_of_no_begin [] (by decide)

/-- The validator accepts the all-empty inputs under the always-accepting
structural validators. -/
theorem acv_empty_ok :
    action_certificates_are_valid alwaysTrue alwaysTrue [] [] [] [] = .ok true := by
  have hb : b64decode [] = .ok [] := rfl
  have hu : utf8Decode ([] : Bytes) = some [] := rfl
  simp [action_certificates_are_valid, hb, hu, alwaysTrue, parse_chain_nil]

/-- Unfolding of the provide-certificate handler on the path where
validation succeeds and all payloads decode: the handler is exactly the
attach step applied to the stripped decoded payloads and parsed chain. -/
theorem provide_attach_eq (validC validCsr : Bytes → Bool) (attach : AttachFn)
    (st : CharmState) (p : ProvideParams) (chb csrb cb cab : Bytes)
    (chs csrs cs cas : PyStr)
    (hrel : relation_created st.relationsGet certificatesRelation = true)
    (hval : action_certificates_are_valid validC validCsr p.certificate p.ca_certificate
      p.certificate_signing_request p.ca_chain = .ok true)
    (h1 : b64decode p.ca_chain = .ok chb) (h2 : utf8Decode chb = some chs)
    (h3 : b64decode p.certificate_signing_request = .ok csrb)
    (h4 : utf8Decode csrb = some csrs)
    (h5 : b64decode p.certificate = .ok cb) (h6 : utf8Decode cb = some cs)
    (h7 : b64decode p.ca_certificate = .ok cab) (h8 : utf8Decode cab = some cas) :
    on_provide_certificate_action validC validCsr attach st p =
      (match attach p.relation_id (pyStrip csrs) (pyStrip cs) (pyStrip cas)
          (parse_ca_chain chs) st.ledger with
        | .error .runtimeError => (.failed relationNotFoundMsg, st.ledger)
        | .error e => (.raised e, st.ledger)
        | .ok newLedger => (.results providedMsg, newLedger)) := by
  unfold on_provide_certificate_action
  simp only [hrel, hval, h1, h2, h3, h4, h5, h6, h7, h8, Bool.not_true,
    Bool.false_eq_true, if_false]

/-- Claim C5: when validation succeeds and the three text payloads UTF-8
decode, the handler passes to the attach step exactly the UTF-8-decoded,
whitespace-trimmed CSR, certificate and CA certificate strings together
with the parsed chain list, and maps the attach result as the action
outcome. -/
theorem provide_passes_stripped_payloads (validC validCsr : Bytes → Bool) (attach : AttachFn)
    (st : CharmState) (p : ProvideParams) (chb csrb cb cab : Bytes)
    (chs csrs cs cas : PyStr)
    (hrel : relation_created st.relationsGet certificatesRelation = true)
    (hval : action_certificates_are_valid validC validCsr p.certificate p.ca_certificate
      p.certificate_signing_request p.ca_chain = .ok true)
    (h1 : b64decode p.ca_chain = .ok chb) (h2 : utf8Decode chb = some chs)
    (h3 : b64decode p.certificate_signing_request = .ok csrb)
    (h4 : utf8Decode csrb = some csrs)
    (h5 : b64decode p.certificate = .ok cb) (h6 : utf8Decode cb = some cs)
    (h7 : b64decode p.ca_certificate = .ok cab) (h8 : utf8Decode cab = some cas) :
    on_provide_certificate_action validC validCsr attach st p =
      (match attach p.relation_id (pyStrip csrs) (pyStrip cs) (pyStrip cas)
          (parse_ca_chain chs) st.ledger with
        | .error .runtimeError => (.failed relationNotFoundMsg, st.ledger)
        | .error e => (.raised e, st.ledger)
        | .ok newLedger => (.results providedMsg, newLedger)) :=
  provide_attach_eq validC validCsr attach st p chb csrb cb cab chs csrs cs cas
    hrel hval h1 h2 h3 h4 h5 h6 h7 h8

/-- Witness for C5 at concrete inputs (all-empty payloads). -/
theorem provide_passes_stripped_payloads_witness :
    on_provide_certificate_action alwaysTrue alwaysTrue set_relation_certificate
        sampleState emptyParams =
      (match set_relation_certificate emptyParams.relation_id (pyStrip [])
          (pyStrip []) (pyStrip []) (parse_ca_chain []) sampleState.ledger with
        | .error .runtimeError => (.failed relationNotFoundMsg, sampleState.ledger)
        | .error e => (.raised e, sampleState.ledger)
        | .ok newLedger => (.results providedMsg, newLedger)) :=
  provide_passes_stripped_payloads alwaysTrue alwaysTrue set_relation_certificate
    sampleState emptyParams [] [] [] [] [] [] [] [] (by decide) acv_empty_ok
    rfl rfl rfl rfl rfl rfl rfl rfl

/-- Claim C2: with inputs that pass validation (and payloads that UTF-8
decode) but a relation id for which no session exists, the attach step's
not-found failure (`RuntimeError`) is caught and reported as the distinct
relation-not-found outcome — not as generic invalid input and with no
success result — regardless of the ledger's other contents (in particular
of whether the CSR text matches an entry of another relation); the ledger
is unchanged. -/
theorem provide_relation_not_found (validC validCsr : Bytes → Bool)
    (st : CharmState) (p : ProvideParams) (chb csrb cb cab : Bytes)
    (chs csrs cs cas : PyStr)
    (hrel : relation_created st.relationsGet certificatesRelation = true)
    (hval : action_certificates_are_valid validC validCsr p.certificate p.ca_certificate
      p.certificate_signing_request p.ca_chain = .ok true)
    (h1 : b64decode p.ca_chain = .ok chb) (h2 : utf8Decode chb = some chs)
    (h3 : b64decode p.certificate_signing_request = .ok csrb)
    (h4 : utf8Decode csrb = some csrs)
    (h5 : b64decode p.certificate = .ok cb) (h6 : utf8Decode cb = some cs)
    (h7 : b64decode p.ca_certificate = .ok cab) (h8 : utf8Decode cab = some cas)
    (hmiss : ∀ r ∈ st.ledger, r.relId ≠ p.relation_id) :
    on_provide_certificate_action validC validCsr set_relation_certificate st p =
      (.failed relationNotFoundMsg, st.ledger) := by
  have hfind : st.ledger.find? (fun r => r.relId == p.relation_id) = none := by
    rw [List.find?_eq_none]
    intro r hr
    simpa using hmiss r hr
  rw [provide_attach_eq validC validCsr set_relation_certificate st p
    chb csrb cb cab chs csrs cs cas hrel hval h1 h2 h3 h4 h5 h6 h7 h8]
  unfold set_relation_certificate
  rw [hfind]

/-- Witness for C2: valid empty payloads against relation id 7, which does
not exist in `sampleLedger` (its only relation has id 1, whose entries do
contain CSR texts). -/
theorem provide_relation_not_found_witness :
    on_provide_certificate_action alwaysTrue alwaysTrue set_relation_certificate
        sampleState emptyParams = (.failed relationNotFoundMsg, sampleState.ledger) :=
  provide_relation_not_found alwaysTrue alwaysTrue sampleState emptyParams
    [] [] [] [] [] [] [] [] (by decide) acv_empty_ok rfl rfl rfl rfl rfl rfl rfl rfl
    (by decide)

/-- Claim C3 (counterexample): a non-ASCII input is a base64 decode
failure, yet validation does not yield the invalid-input outcome — the
`ValueError` escapes the `except (binascii.Error, TypeError)` clause. -/
theorem validate_nonascii_cex :
    b64decode (("é").toList) = .error .nonAscii ∧
    action_certificates_are_valid alwaysTrue alwaysTrue (("é").toList) [] [] [] =
      .error .valueError ∧
    ¬ action_certificates_are_valid alwaysTrue alwaysTrue (("é").toList) [] [] [] =
        .ok false := by
  decide

/-- Claim C3 (amended): the validator follows exactly the claimed steps —
base64-decode the four inputs in order (a `binascii` padding failure at any
of them yields the invalid-input outcome, while a non-ASCII input instead
raises an uncaught `ValueError`, see the counterexample); then validate the
certificate, the CA certificate and the CSR structurally in that order, any
failure yielding invalid input; then UTF-8-decode the chain (failure raises
an uncaught `UnicodeDecodeError`), split it into PEM blocks and validate
each block; validation succeeds exactly when every step passes. -/
theorem certificates_valid_steps (validC validCsr : Bytes → Bool) (c ca r ch : PyStr) :
    (action_certificates_are_valid validC validCsr c ca r ch = .ok true ↔
      ∃ cb cab rb chb, b64decode c = .ok cb ∧ b64decode ca = .ok cab ∧
        b64decode r = .ok rb ∧ b64decode ch = .ok chb ∧
        validC cb = true ∧ validC cab = true ∧ validCsr rb = true ∧
        ∃ s, utf8Decode chb = some s ∧
          (parse_ca_chain s).all (fun blk => validC (utf8Encode blk)) = true) ∧
    (b64decode c = .error .badPadding →
      action_certificates_are_valid validC validCsr c ca r ch = .ok false) ∧
    (∀ cb, b64decode c = .ok cb → b64decode ca = .error .badPadding →
      action_certificates_are_valid validC validCsr c ca r ch = .ok false) ∧
    (∀ cb cab, b64decode c = .ok cb → b64decode ca = .ok cab →
      b64decode r = .error .badPadding →
      action_certificates_are_valid validC validCsr c ca r ch = .ok false) ∧
    (∀ cb cab rb, b64decode c = .ok cb → b64decode ca = .ok cab →
      b64decode r = .ok rb → b64decode ch = .error .badPadding →
      action_certificates_are_valid validC validCsr c ca r ch = .ok false) ∧
    (∀ cb cab rb chb, b64decode c = .ok cb → b64decode ca = .ok cab →
      b64decode r = .ok rb → b64decode ch = .ok chb → validC cb = false →
      action_certificates_are_valid validC validCsr c ca r ch = .ok false) ∧
    (∀ cb cab rb chb, b64decode c = .ok cb → b64decode ca = .ok cab →
      b64decode r = .ok rb → b64decode ch = .ok chb → validC cb = true →
      validC cab = false →
      action_certificates_are_valid validC validCsr c ca r ch = .ok false) ∧
    (∀ cb cab rb chb, b64decode c = .ok cb → b64decode ca = .ok cab →
      b64decode r = .ok rb → b64decode ch = .ok chb → validC cb = true →
      validC cab = true → validCsr rb = false →
      action_certificates_are_valid validC validCsr c ca r ch = .ok false) ∧
    (∀ cb cab rb chb s, b64decode c = .ok cb → b64decode ca = .ok cab →
      b64decode r = .ok rb → b64decode ch = .ok chb → validC cb = true →
      validC cab = true → validCsr rb = true → utf8Decode chb = some s →
      action_certificates_are_valid validC validCsr c ca r ch =
        .ok ((parse_ca_chain s).all (fun blk => validC (utf8Encode blk)))) := by
  refine ⟨⟨?_, ?_⟩, ?_, ?_, ?_, ?_, ?_, ?_, ?_, ?_⟩
  · intro h
    cases hc : b64decode c with
    | error e => cases e <;> simp [action_certificates_are_valid, hc] at h
    | ok cb =>
      cases hca : b64decode ca with
      | error e => cases e <;> simp [action_certificates_are_valid, hc, hca] at h
      | ok cab =>
        cases hr : b64decode r with
        | error e => cases e <;> simp [action_certificates_are_valid, hc, hca, hr] at h
        | ok rb =>
          cases hch : b64decode ch with
          | error e =>
            cases e <;> simp [action_certificates_are_valid, hc, hca, hr, hch] at h
          | ok chb =>
            cases hv1 : validC cb with
            | false => simp [action_certificates_are_valid, hc, hca, hr, hch, hv1] at h
            | true =>
              cases hv2 : validC cab with
              | false =>
                simp [action_certificates_are_valid, hc, hca, hr, hch, hv1, hv2] at h
              | true =>
                cases hv3 : validCsr rb with
                | false =>
                  simp [action_certificates_are_valid, hc, hca, hr, hch, hv1, hv2,
                    hv3] at h
                | true =>
                  cases hu : utf8Decode chb with
                  | none =>
                    simp [action_certificates_are_valid, hc, hca, hr, hch, hv1, hv2,
                      hv3, hu] at h
                  | some s =>
                    simp [action_certificates_are_valid, hc, hca, hr, hch, hv1, hv2,
                      hv3, hu] at h
                    exact ⟨cb, cab, rb, chb, rfl, rfl, rfl, rfl, hv1, hv2, hv3, s, hu,
                      List.all_eq_true.mpr h⟩
  · rintro ⟨cb, cab, rb, chb, hc, hca, hr, hch, hv1, hv2, hv3, s, hu, hall⟩
    simp [action_certificates_are_valid, hc, hca, hr, hch, hv1, hv2, hv3, hu, hall]
  · intro hc
    simp [action_certificates_are_valid, hc]
  · intro cb hc hca
    simp [action_certificates_are_valid, hc, hca]
  · intro cb cab hc hca hr
    simp [action_certificates_are_valid, hc, hca, hr]
  · intro cb cab rb hc hca hr hch
    simp [action_certificates_are_valid, hc, hca, hr, hch]
  · intro cb cab rb chb hc hca hr hch hv1
    simp [action_certificates_are_valid, hc, hca, hr, hch, hv1]
  · intro cb cab rb chb hc hca hr hch hv1 hv2
    simp [action_certificates_are_valid, hc, hca, hr, hch, hv1, hv2]
  · intro cb cab rb chb hc hca hr hch hv1 hv2 hv3
    simp [action_certificates_are_valid, hc, hca, hr, hch, hv1, hv2, hv3]
  · intro cb cab rb chb s hc hca hr hch hv1 hv2 hv3 hu
    simp [action_certificates_are_valid, hc, hca, hr, hch, hv1, hv2, hv3, hu]

/-- Witness for the amended C3: a lone `"A"` is incorrectly padded base64,
so validation fails with the invalid-input outcome. -/
theorem certificates_valid_steps_witness :
    action_certificates_are_valid alwaysTrue alwaysTrue (("A").toList) [] [] [] =
      .ok false :=
  (certificates_valid_steps alwaysTrue alwaysTrue (("A").toList) [] [] []).2.1
    (by decide)

theorem leadsWith_append_left (p v : PyStr) : leadsWith p (p ++ v) = true := by
  induction p with
  | nil => rfl
  | cons c ps ih => simp [leadsWith, ih]

theorem findSub_cons_ne (c : Char) (tl : PyStr) (d : Char) (t : PyStr) (h : d ≠ c) :
    findSub (c :: tl) (d :: t) = (findSub (c :: tl) t).map (· + 1) := by
  have hcd : (c == d) = false := beq_eq_false_iff_ne.mpr (Ne.symm h)
  simp [findSub, leadsWith, hcd]

theorem findSub_append_clean (tl u v : PyStr) (hu : ∀ c ∈ u, c ≠ '-') :
    findSub ('-' :: tl) (u ++ v) = (findSub ('-' :: tl) v).map (· + u.length) := by
  induction u with
  | nil =>
    simp only [List.nil_append, List.length_nil]
    cases h : findSub ('-' :: tl) v <;> simp [h]
  | cons c u2 ih =>
    have hc : c ≠ '-' := hu c (List.mem_cons_self c u2)
    have ih2 := ih (fun x hx => hu x (List.mem_cons_of_mem c hx))
    rw [List.cons_append, findSub_cons_ne '-' tl c (u2 ++ v) hc, ih2]
    cases h : findSub ('-' :: tl) v <;> simp [h] <;> omega

theorem findSub_here (pat v : PyStr) : findSub pat (pat ++ v) = some 0 := by
  rw [findSub.eq_def, leadsWith_append_left]
  rfl

theorem findSub_none_clean (tl u : PyStr) (hu : ∀ c ∈ u, c ≠ '-') :
    findSub ('-' :: tl) u = none := by
  have h := findSub_append_clean tl u [] hu
  rw [List.append_nil] at h
  rw [h]
  rfl

theorem beginMark_eq : beginMark = '-' :: ("----BEGIN CERTIFICATE-----").toList := rfl

theorem endMark_eq : endMark = '-' :: ("----END CERTIFICATE-----").toList := rfl

theorem findSub_beginMark_append (u v : PyStr) (hu : ∀ c ∈ u, c ≠ '-') :
    findSub beginMark (u ++ v) = (findSub beginMark v).map (· + u.length) := by
  rw [beginMark_eq]
  exact findSub_append_clean _ u v hu

theorem findSub_endMark_append (u v : PyStr) (hu : ∀ c ∈ u, c ≠ '-') :
    findSub endMark (u ++ v) = (findSub endMark v).map (· + u.length) := by
  rw [endMark_eq]
  exact findSub_append_clean _ u v hu

theorem findSub_beginMark_none (u : PyStr) (hu : ∀ c ∈ u, c ≠ '-') :
    findSub beginMark u = none := by
  rw [beginMark_eq]
  exact findSub_none_clean _ u hu

theorem drop_len_append (u v : List Char) : List.drop u.length (u ++ v) = v := by
  simp

theorem take_len_append (u v : List Char) : List.take u.length (u ++ v) = u := by
  simp

/-- Claim C8: for every well-formed chain blob made of `n` concatenated PEM
certificate blocks (each block `BEGIN`/`END` delimited with a dash-free
body, separated and followed by dash-free filler such as newlines),
`parse_ca_chain` returns exactly those `n` blocks, in original order and
with the delimiters included; a blob containing no `BEGIN CERTIFICATE`
delimiter yields the empty sequence rather than an error. -/
theorem parse_ca_chain_spec :
    (∀ (ps : List (PyStr × PyStr)) (t : PyStr),
      (∀ pr ∈ ps, NoDash pr.1 ∧ ∃ body, pr.2 = beginMark ++ body ++ endMark ∧ NoDash body) →
      NoDash t →
      parse_ca_chain (glue ps t) = ps.map Prod.snd) ∧
    (∀ s : PyStr, findSub beginMark s = none → parse_ca_chain s = []) := by
  constructor
  · intro ps t
    induction ps with
    | nil =>
      intro _ ht
      simp only [glue, List.map_nil]
      exact parse_chain_of_no_begin t (findSub_beginMark_none t ht)
    | cons pr rest ih =>
      intro hcond ht
      obtain ⟨sep, b⟩ := pr
      obtain ⟨hsep, body, hblock, hbody⟩ := hcond (sep, b) (List.mem_cons_self _ rest)
      have htl := ih (fun q hq => hcond q (List.mem_cons_of_mem _ hq)) ht
      simp only at hblock
      subst hblock
      simp only [glue, List.map_cons]
      have hshape : sep ++ ((beginMark ++ body ++ endMark) ++ glue rest t) =
          sep ++ (beginMark ++ (body ++ (endMark ++ glue rest t))) := by
        simp [List.append_assoc]
      rw [hshape]
      have hfb : findSub beginMark
          (sep ++ (beginMark ++ (body ++ (endMark ++ glue rest t)))) =
          some sep.length := by
        rw [findSub_beginMark_append sep _ hsep, findSub_here]
        simp
      rw [parse_ca_chain.eq_def]
      split
      · next hnone => rw [hfb] at hnone; exact Option.noConfusion hnone
      · next i hsome =>
        rw [hfb] at hsome
        have hi : i = sep.length := (Option.some.inj hsome).symm
        subst hi
        have hdrop1 : List.drop (sep.length + beginMark.length)
            (sep ++ (beginMark ++ (body ++ (endMark ++ glue rest t)))) =
            body ++ (endMark ++ glue rest t) := by
          rw [show sep ++ (beginMark ++ (body ++ (endMark ++ glue rest t))) =
              (sep ++ beginMark) ++ (body ++ (endMark ++ glue rest t)) by
            simp [List.append_assoc]]
          rw [show sep.length + beginMark.length = (sep ++ beginMark).length by simp]
          exact drop_len_append _ _
        have hfe : findSub endMark (body ++ (endMark ++ glue rest t)) =
            some body.length := by
          rw [findSub_endMark_append body _ hbody, findSub_here]
          simp
        split
        · next hnone2 => rw [hdrop1, hfe] at hnone2; exact Option.noConfusion hnone2
        · next j hsome2 =>
          rw [hdrop1, hfe] at hsome2
          have hj : j = body.length := (Option.some.inj hsome2).symm
          subst hj
          have hdrop2 : List.drop sep.length
              (sep ++ (beginMark ++ (body ++ (endMark ++ glue rest t)))) =
              (beginMark ++ body ++ endMark) ++ glue rest t := by
            rw [show sep ++ (beginMark ++ (body ++ (endMark ++ glue rest t))) =
                sep ++ ((beginMark ++ body ++ endMark) ++ glue rest t) by
              simp [List.append_assoc]]
            exact drop_len_append _ _
          have htake : List.take (beginMark.length + body.length + endMark.length)
              ((beginMark ++ body ++ endMark) ++ glue rest t) =
              beginMark ++ body ++ endMark := by
            rw [show beginMark.length + body.length + endMark.length =
                (beginMark ++ body ++ endMark).length by simp [List.length_append]; omega]
            exact take_len_append _ _
          have hdrop3 : List.drop
              (sep.length + beginMark.length + body.length + endMark.length)
              (sep ++ (beginMark ++ (body ++ (endMark ++ glue rest t)))) =
              glue rest t := by
            rw [show sep ++ (beginMark ++ (body ++ (endMark ++ glue rest t))) =
                (sep ++ (beginMark ++ body ++ endMark)) ++ glue rest t by
              simp [List.append_assoc]]
            rw [show sep.length + beginMark.length + body.length + endMark.length =
                (sep ++ (beginMark ++ body ++ endMark)).length by
              simp [List.length_append]; omega]
            exact drop_len_append _ _
          rw [hdrop2, htake, hdrop3, htl]
  · exact parse_chain_of_no_begin

/-- Witness for C8: a blob of two well-formed PEM blocks separated and
followed by newlines parses to exactly those two blocks in order. -/
theorem parse_ca_chain_spec_witness :
    parse_ca_chain (glue [(("").toList, sampleBlock0), (("\n").toList, sampleBlock1)]
        (("\n").toList)) = [sampleBlock0, sampleBlock1] :=
  parse_ca_chain_spec.1 [(("").toList, sampleBlock0), (("\n").toList, sampleBlock1)]
    (("\n").toList)
    (fun pr hpr => by
      rcases List.mem_cons.mp hpr with rfl | h2
      · exact ⟨by decide, sampleBody0, rfl, by decide⟩
      · rcases List.mem_cons.mp h2 with rfl | h3
        · exact ⟨by decide, sampleBody1, rfl, by decide⟩
        · exact absurd h3 (List.not_mem_nil pr))
    (by decide)

/-- Witness for C4: relation id 7 names no session of `sampleLedger`, so the
action fails with the ledger's not-found error. -/
theorem get_certificate_request_spec_witness :
    on_get_certificate_request_action sampleState 7 = .raised .notFoundError :=
  (get_certificate_request_spec sampleState 7 (by decide)).1 (by decide)

/-- A pad character against one quadruple does not complete a later one:
after the data characters `C`–`F` the pad count is reset, so the trailing
lone `=` leaves an incomplete quadruple and the decode fails with
`binascii.Error`, exactly as CPython's `base64.b64decode` does. -/
theorem b64decode_stale_pad_err :
    b64decode (("AB=CDEF=").toList) = .error .badPadding := by decide

/-- With further data characters after the stale pad the decode succeeds
and yields CPython's bytes, the mid-string pads being ignored. -/
theorem b64decode_stale_pad_reset :
    b64decode (("AB=CDEF=GH").toList) = .ok [0, 16, 131, 16, 81, 135] := by decide
